import Mathlib

/-!
Verification development for the ai-proxy gateway and content script.

The definitions below are a shallow embedding of `src/server/localServer.ts`
and `src/content/content.ts`:

* pure string helpers (`normalizeText`, `normalizePromptForBrowser`, the
  echo / transient / chrome filters) are translated directly;
* the DOM is abstracted as an ordered list of candidate nodes per poll tick
  (`DomNode`), since node identity and selector tables are configuration;
* JavaScript timers and the event loop are modelled by an explicit event
  trace over the correlation-table state, with the convention that a timer
  is armed exactly while its entry is in the table (the source pairs every
  `delete` with a `clearTimeout`, and the timeout callback itself both
  deletes and rejects);
* `Date.now()` during the stabilization loop is modelled as `500 * tick`
  (the poll interval), treating each tick body as instantaneous;
* string operations are restricted to the ASCII/BMP behaviour shared by
  JavaScript and Lean (whitespace class, `toLowerCase`, UTF-16 lengths of
  BMP text).
-/

/-- Whitespace characters recognised by the JavaScript regex class `\s`
(restricted to the ASCII range used by the program). -/
def isJsWhitespace (c : Char) : Bool :=
  c = ' ' || c = '\t' || c = '\n' || c = '\r' || c = '\x0b' || c = '\x0c'

/-- Collapse every maximal whitespace run to a single space, as in the
JavaScript `input.replace(/\s+/g, ' ')`. -/
def collapseWs : List Char → List Char
  | [] => []
  | [c] => [if isJsWhitespace c then ' ' else c]
  | a :: b :: rest =>
    if isJsWhitespace a && isJsWhitespace b then collapseWs (b :: rest)
    else (if isJsWhitespace a then ' ' else a) :: collapseWs (b :: rest)

/-- JavaScript `String.prototype.trim` on a character list. -/
def jsTrimChars (l : List Char) : List Char :=
  ((l.dropWhile isJsWhitespace).reverse.dropWhile isJsWhitespace).reverse

/-- JavaScript `String.prototype.trim`. -/
def jsTrim (s : String) : String :=
  String.mk (jsTrimChars s.data)

/-- content.ts `normalizeText`: `input.replace(/\s+/g, ' ').trim()`. -/
def normalizeText (input : String) : String :=
  jsTrim (String.mk (collapseWs input.data))

/-- JavaScript `toLowerCase` (restricted to its ASCII behaviour, the range
exercised by the program's comparisons). -/
def jsToLower (s : String) : String :=
  String.mk (s.data.map Char.toLower)

/-- content.ts `normalizeForComparison`: `normalizeText(input).toLowerCase()`. -/
def normalizeForComparison (input : String) : String :=
  jsToLower (normalizeText input)

/-- JavaScript `hay.includes(needle)` on character lists. -/
def charsContain (needle : List Char) : List Char → Bool
  | [] => needle.isEmpty
  | c :: rest => needle.isPrefixOf (c :: rest) || charsContain needle rest

/-- JavaScript `hay.includes(needle)`. -/
def strIncludes (hay needle : String) : Bool :=
  charsContain needle.data hay.data

/-- JavaScript `s.endsWith(suffix)`. -/
def strEndsWith (s suffix : String) : Bool :=
  suffix.data.isSuffixOf s.data

/-- The suffix after the last occurrence of `marker`, mirroring
`input.lastIndexOf(marker)` followed by `input.slice(idx + marker.length)`;
`none` when the marker does not occur. -/
def tailAfterLast (marker : List Char) : List Char → Option (List Char)
  | [] => none
  | c :: rest =>
    match tailAfterLast marker rest with
    | some t => some t
    | none =>
      if marker.isPrefixOf (c :: rest) then some ((c :: rest).drop marker.length)
      else none

/-- The marker searched by `normalizePromptForBrowser`. -/
def promptMarker : String := "User request:"

/-- localServer.ts `normalizePromptForBrowser`: keep only the trimmed text
after the last `User request:` marker when that text is non-empty. -/
def normalizePromptForBrowser (input : String) : String :=
  match tailAfterLast promptMarker.data input.data with
  | some tailChars =>
    let tail := jsTrim (String.mk tailChars)
    if tail.length > 0 then tail else input
  | none => input

/-- content.ts `looksLikeEchoResponse`. -/
def looksLikeEchoResponse (candidate sentMessage : String) : Bool :=
  let c := normalizeText candidate
  let s := normalizeText sentMessage
  if c = "" ∨ s = "" then false
  else if c = s then true
  else if strEndsWith c s then true
  else if strIncludes c ("User request: " ++ s) then true
  else false

/-- content.ts `looksLikeWorkspaceWrapper`. -/
def looksLikeWorkspaceWrapper (candidate : String) : Bool :=
  let c := normalizeText candidate
  strIncludes c "Workspace CWD:" && strIncludes c "User request:"

/-- The fixed in-progress phrases of content.ts `looksLikeTransientStatus`. -/
def transientHints : List String :=
  ["grok正在搜索网页", "正在搜索网页", "searching the web", "searching web",
   "done collecting workspace context", "phase: model reasoning", "executed code",
   " sources", "you>", "assistant[", "(phase:"]

/-- content.ts `looksLikeTransientStatus`. -/
def looksLikeTransientStatus (candidate : String) : Bool :=
  let c := jsToLower (normalizeText candidate)
  if c = "" then true
  else transientHints.any (fun hint => strIncludes c hint)

/-- The short interface labels of content.ts `looksLikeUiChromeText`. -/
def shortUiLabels : List String :=
  ["快速模式", "深度思考", "发送", "停止", "复制", "重试", "编辑"]

/-- The longer interface hints of content.ts `looksLikeUiChromeText`. -/
def uiHints : List String :=
  ["快速模式", "深度思考", "自动换行", "复制", "收起", "展开", "重新生成", "继续生成"]

/-- content.ts `looksLikeUiChromeText`. -/
def looksLikeUiChromeText (candidate : String) : Bool :=
  let c := normalizeText candidate
  if c = "" then true
  else if c.length ≤ 8 && shortUiLabels.contains c then true
  else uiHints.any (fun hint => strIncludes c hint)

/-- A DOM candidate node observed by one poll tick: its extracted readable
text and whether the node was part of the pre-submission baseline set. -/
structure DomNode where
  text : String
  inBaseline : Bool

/-- Walks the candidate nodes newest-first, mirroring the filter chain of
content.ts `getNewestNonEchoCandidate`. -/
def newestNonEchoAux (sentMessage previousSnapshot : String)
    (baselineTexts : List String) : List DomNode → String
  | [] => ""
  | node :: rest =>
    if node.inBaseline then newestNonEchoAux sentMessage previousSnapshot baselineTexts rest
    else if node.text = "" then newestNonEchoAux sentMessage previousSnapshot baselineTexts rest
    else if baselineTexts.contains (normalizeForComparison node.text) then
      newestNonEchoAux sentMessage previousSnapshot baselineTexts rest
    else if node.text = previousSnapshot then
      newestNonEchoAux sentMessage previousSnapshot baselineTexts rest
    else if looksLikeWorkspaceWrapper node.text then
      newestNonEchoAux sentMessage previousSnapshot baselineTexts rest
    else if looksLikeTransientStatus node.text then
      newestNonEchoAux sentMessage previousSnapshot baselineTexts rest
    else if looksLikeUiChromeText node.text then
      newestNonEchoAux sentMessage previousSnapshot baselineTexts rest
    else if looksLikeEchoResponse node.text sentMessage then
      newestNonEchoAux sentMessage previousSnapshot baselineTexts rest
    else node.text

/-- content.ts `getNewestNonEchoCandidate` over the document-ordered nodes. -/
def getNewestNonEchoCandidate (nodes : List DomNode) (sentMessage previousSnapshot : String)
    (baselineTexts : List String) : String :=
  newestNonEchoAux sentMessage previousSnapshot baselineTexts nodes.reverse

/-- Walks the candidate nodes newest-first, mirroring the filter chain of
content.ts `getLatestCandidateBySelectors`. -/
def latestCandidateAux (baselineTexts : List String) : List DomNode → String
  | [] => ""
  | node :: rest =>
    if node.inBaseline then latestCandidateAux baselineTexts rest
    else if node.text = "" then latestCandidateAux baselineTexts rest
    else if baselineTexts.contains (normalizeForComparison node.text) then
      latestCandidateAux baselineTexts rest
    else if looksLikeWorkspaceWrapper node.text then latestCandidateAux baselineTexts rest
    else if looksLikeTransientStatus node.text then latestCandidateAux baselineTexts rest
    else if looksLikeUiChromeText node.text then latestCandidateAux baselineTexts rest
    else node.text

/-- content.ts `getLatestCandidateBySelectors` over the document-ordered nodes. -/
def getLatestCandidateBySelectors (nodes : List DomNode) (baselineTexts : List String) : String :=
  latestCandidateAux baselineTexts nodes.reverse

/-- One poll tick scan: `getNewestNonEchoCandidate(...) ||
getLatestCandidateBySelectors(...)` (empty string is falsy in JavaScript). -/
def scanTick (nodes : List DomNode) (sentMessage previousSnapshot : String)
    (baselineTexts : List String) : String :=
  let a := getNewestNonEchoCandidate nodes sentMessage previousSnapshot baselineTexts
  if a = "" then getLatestCandidateBySelectors nodes baselineTexts else a

/-- The decision one loop iteration of `waitForAssistantReply` takes on its
candidate. -/
inductive TickAct where
  | skip
  | record
  | accept
  deriving DecidableEq

/-- The filter-and-stability decision of one iteration of content.ts
`waitForAssistantReply`, given the scanned candidate, the loop state
(`stableCandidate`, `stableSince`) and the current time. -/
def tickAct (latest sentMessage previousSnapshot stableCandidate : String)
    (stableSince now : Nat) : TickAct :=
  if latest = "" then .skip
  else if latest = previousSnapshot then .skip
  else if looksLikeEchoResponse latest sentMessage then .skip
  else if looksLikeWorkspaceWrapper latest then .skip
  else if looksLikeTransientStatus latest then .skip
  else if looksLikeUiChromeText latest then .skip
  else if latest ≠ stableCandidate then .record
  else if 1200 ≤ now - stableSince then .accept
  else .skip

/-- The polling loop of content.ts `waitForAssistantReply`. Tick `t` runs at
time `500 * t` (the poll interval); the loop body runs only while the time
is below `timeoutMs`, and `none` models the thrown timeout error. The fuel
argument only bounds recursion and is supplied large enough to cover every
tick before the timeout. -/
def waitLoop (stream : Nat → List DomNode) (sentMessage previousSnapshot : String)
    (baselineTexts : List String) (timeoutMs : Nat) :
    Nat → Nat → String → Nat → Option String
  | 0, _, _, _ => none
  | fuel + 1, t, stableCandidate, stableSince =>
    if 500 * t < timeoutMs then
      let latest := scanTick (stream t) sentMessage previousSnapshot baselineTexts
      match tickAct latest sentMessage previousSnapshot stableCandidate stableSince (500 * t) with
      | .accept => some latest
      | .record =>
        waitLoop stream sentMessage previousSnapshot baselineTexts timeoutMs fuel (t + 1)
          latest (500 * t)
      | .skip =>
        waitLoop stream sentMessage previousSnapshot baselineTexts timeoutMs fuel (t + 1)
          stableCandidate stableSince
    else none

/-- content.ts `waitForAssistantReply`: starts with an empty stable candidate
and zero stability timestamp and polls until acceptance or timeout. -/
def waitForAssistantReply (stream : Nat → List DomNode)
    (previousSnapshot sentMessage : String) (baselineTexts : List String)
    (timeoutMs : Nat) : Option String :=
  waitLoop stream sentMessage previousSnapshot baselineTexts timeoutMs
    (timeoutMs / 500 + 1) 0 "" 0

/-- Test stream for the streaming-render scenario: a transient status line,
then a truncated render, then the steady final text. -/
def streamingStream : Nat → List DomNode :=
  fun t =>
    if t = 0 then [⟨"searching the web", false⟩]
    else if t = 1 then [⟨"partial answ", false⟩]
    else [⟨"partial answer", false⟩]

/-- Test stream for the echo scenario: the submitted message is reflected
back as a node, then the steady answer appears below it. -/
def echoStream : Nat → List DomNode :=
  fun t =>
    if t = 0 then [⟨"hello", false⟩]
    else [⟨"hello", false⟩, ⟨"answer", false⟩]

/-- State of the gateway's correlation table (`pendingBridgeRequests`):
the ids of pending entries in insertion order, and the ids whose timeout
timer is currently armed. The source arms the timer exactly when it inserts
the entry and pairs every removal with a `clearTimeout`, so the two lists
evolve together; keeping both makes the timer bookkeeping explicit. -/
structure BridgeSt where
  pending : List String
  timers : List String

/-- A terminal outcome delivered to a bridge call's promise. -/
inductive BridgeOut where
  | resolved (id : String)
  | rejectedTimeout (id : String)
  | rejected (id : String) (reason : String)

/-- The id an outcome settles. -/
def outId : BridgeOut → String
  | .resolved i => i
  | .rejectedTimeout i => i
  | .rejected i _ => i

/-- An event of the gateway's single-threaded event loop that touches the
correlation table. `timerFire id` can only have an effect while the timer
for `id` is still armed (a cleared timer never runs). -/
inductive BridgeEv where
  | issue (id : String)
  | response (id : String) (success : Bool) (error : String)
  | hello
  | timerFire (id : String)
  | close

/-- localServer.ts `bridgeCall` after the connectivity check: registers the
fresh id in the table and arms its timeout timer. -/
def issueBridgeCall (st : BridgeSt) (id : String) : BridgeSt × List BridgeOut :=
  (⟨st.pending ++ [id], st.timers ++ [id]⟩, [])

/-- localServer.ts `resolveBridgeResponse` for a response envelope: a
response whose id is not in the table is dropped; otherwise the timer is
cleared, the entry removed, and the promise resolved or rejected. -/
def resolveBridgeResponse (st : BridgeSt) (id : String) (success : Bool) (error : String) :
    BridgeSt × List BridgeOut :=
  if id ∈ st.pending then
    (⟨st.pending.erase id, st.timers.erase id⟩,
      [if success then .resolved id else .rejected id error])
  else (st, [])

/-- The timeout callback armed by `bridgeCall`: deletes the entry and
rejects with a timeout error. It runs only while its timer is armed. -/
def fireBridgeTimeout (st : BridgeSt) (id : String) : BridgeSt × List BridgeOut :=
  if id ∈ st.timers then
    (⟨st.pending.erase id, st.timers.erase id⟩, [.rejectedTimeout id])
  else (st, [])

/-- localServer.ts `rejectAllPending`: clears every timer, rejects every
entry with the given reason, and empties the table. -/
def rejectAllPending (st : BridgeSt) (reason : String) : BridgeSt × List BridgeOut :=
  (⟨[], []⟩, st.pending.map (fun id => .rejected id reason))

/-- One event of the correlation-table state machine. The socket `close`
handler invokes `rejectAllPending('Bridge disconnected.')`; a `hello`
envelope is informational and never touches the table. -/
def bridgeStep (st : BridgeSt) : BridgeEv → BridgeSt × List BridgeOut
  | .issue id => issueBridgeCall st id
  | .response id success error => resolveBridgeResponse st id success error
  | .hello => (st, [])
  | .timerFire id => fireBridgeTimeout st id
  | .close => rejectAllPending st "Bridge disconnected."

/-- Runs an event trace, accumulating the outcomes it delivers. -/
def bridgeRun (st : BridgeSt) : List BridgeEv → BridgeSt × List BridgeOut
  | [] => (st, [])
  | e :: rest =>
    let s1 := bridgeStep st e
    let s2 := bridgeRun s1.1 rest
    (s2.1, s1.2 ++ s2.2)

/-- Number of outcomes in a log that settle the call `id`. -/
def outcomesFor (id : String) (outs : List BridgeOut) : Nat :=
  (outs.filter (fun o => outId o = id)).length

/-- Number of times a trace issues a call with identifier `id`. -/
def issueCount (id : String) : List BridgeEv → Nat
  | [] => 0
  | .issue j :: rest => (if j = id then 1 else 0) + issueCount id rest
  | _ :: rest => issueCount id rest

/-- The gateway's agent-connection slot and the forced closes a connection
event performs: sockets are named by numbers, `readyOpen` tells which are
in the OPEN ready state. The wss connection handler closes a live previous
socket and then installs the new one. -/
def onAgentConnection (readyOpen : Nat → Bool) (agentSocket : Option Nat) (sock : Nat) :
    Option Nat × List Nat :=
  match agentSocket with
  | some old =>
    if old ≠ sock ∧ readyOpen old then (some sock, [old]) else (some sock, [])
  | none => (some sock, [])

/-- A sequence of inbound connections folded through the connection handler. -/
def runConnections (readyOpen : Nat → Bool) (init : Option Nat) (socks : List Nat) : Option Nat :=
  socks.foldl (fun cur s => (onAgentConnection readyOpen cur s).1) init

/-- Gateway state visible to a socket's close handler: the current agent
socket and the correlation table. -/
structure GatewaySt where
  agentSocket : Option Nat
  bridge : BridgeSt

/-- The per-socket close handler of `startBridgeServer`: the agent-socket
reset is guarded by `agentSocket === socket`, but `rejectAllPending` runs
unconditionally. -/
def onSocketClose (st : GatewaySt) (sock : Nat) : GatewaySt × List BridgeOut :=
  let ag := if st.agentSocket = some sock then none else st.agentSocket
  let drained := rejectAllPending st.bridge "Bridge disconnected."
  (⟨ag, drained.1⟩, drained.2)

/-- Message role, as in the localServer.ts `ChatMessage` interface. -/
inductive Role where
  | user
  | assistant
  deriving DecidableEq

/-- localServer.ts `ChatMessage`. -/
structure ChatMessage where
  role : Role
  content : String
  timestamp : Nat
  deriving DecidableEq

/-- localServer.ts `ChatSession`. -/
structure ChatSession where
  id : String
  messages : List ChatMessage
  createdAt : Nat
  deriving DecidableEq

/-- Outcome of the awaited `bridgeCall('CHAT_WITH_AI', ...)`: either the
promise rejected with an error message, or it resolved to a result envelope
carrying optional `content` and `error` fields. -/
inductive ChatBridgeOutcome where
  | err (msg : String)
  | ok (content : Option String) (error : Option String)
  deriving DecidableEq

/-- An HTTP reply as far as the claims observe it: success with the session
id and answer text, or an error status with a message. -/
inductive HttpReply where
  | ok (sessionId message : String)
  | err (status : Nat) (msg : String)
  deriving DecidableEq

/-- The chat-turn body shared by `POST /v1/chat` and
`POST /v1/chat/completions` once the prompt and session are resolved:
append the user message, await the bridge, and on a successful envelope
with truthy content append the assistant message. A truthy `error` field
yields 500, missing or empty `content` yields 502 (JavaScript truthiness:
the empty string is falsy). -/
def handleChatTurn (session : ChatSession) (prompt : String) (bridge : ChatBridgeOutcome)
    (tUser tAssistant : Nat) : ChatSession × HttpReply :=
  let s1 : ChatSession := { session with messages := session.messages ++ [⟨.user, prompt, tUser⟩] }
  match bridge with
  | .err m => (s1, .err 500 m)
  | .ok content error =>
    if error.getD "" ≠ "" then (s1, .err 500 (error.getD ""))
    else if content.getD "" = "" then (s1, .err 502 "AI provider returned an empty response.")
    else
      let s2 : ChatSession :=
        { s1 with messages := s1.messages ++ [⟨.assistant, content.getD "", tAssistant⟩] }
      (s2, .ok s2.id (content.getD ""))

/-- The assistant content a bridge outcome contributes: `some` exactly when
the call resolved with a falsy `error` field and truthy `content`. -/
def successContent : ChatBridgeOutcome → Option String
  | .err _ => none
  | .ok content error =>
    if error.getD "" ≠ "" then none
    else if content.getD "" = "" then none
    else some (content.getD "")

/-- `chatSessions.get(sid)` over the session store in insertion order. -/
def findSession (sessions : List ChatSession) (sid : String) : Option ChatSession :=
  sessions.find? (fun s => s.id = sid)

/-- `chatSessions.set(s.id, s)`: update in place or append. -/
def storeSession (sessions : List ChatSession) (s : ChatSession) : List ChatSession :=
  if (sessions.find? (fun x => x.id = s.id)).isSome then
    sessions.map (fun x => if x.id = s.id then s else x)
  else sessions ++ [s]

/-- The `POST /v1/chat` handler after the bridge/auth middleware: validates
the message, normalizes it, resolves or creates the session, and runs the
chat turn. Returns the session store, the HTTP reply, and the prompt passed
to the bridge (`none` when no bridge call was made). `freshId` and `now`
stand for `uuidv4()` and `Date.now()` at session creation. -/
def postV1Chat (sessions : List ChatSession) (message : Option String) (sessionId : Option String)
    (freshId : String) (now tUser tAssistant : Nat) (bridge : ChatBridgeOutcome) :
    List ChatSession × HttpReply × Option String :=
  if message.getD "" = "" then (sessions, .err 400 "Message is required", none)
  else
    let normalizedMessage := normalizePromptForBrowser (message.getD "")
    if jsTrim normalizedMessage = "" then
      (sessions, .err 400 "Message is empty after normalization.", none)
    else if sessionId.getD "" ≠ "" then
      match findSession sessions (sessionId.getD "") with
      | none => (sessions, .err 404 "Session not found", none)
      | some session =>
        let turn := handleChatTurn session normalizedMessage bridge tUser tAssistant
        (storeSession sessions turn.1, turn.2, some normalizedMessage)
    else
      let turn := handleChatTurn ⟨freshId, [], now⟩ normalizedMessage bridge tUser tAssistant
      (storeSession sessions turn.1, turn.2, some normalizedMessage)

/-- Content of an OpenAI-style chat message: a plain string, an array of
parts with optional `text` fields, or absent. -/
inductive OaContent where
  | str (s : String)
  | parts (l : List (Option String))
  | absent

/-- An entry of the OpenAI-compatible `messages` array. -/
structure OaMessage where
  role : String
  content : OaContent

/-- Walks the messages newest-first, as the reversed loop of
localServer.ts `extractLastUserContent`. -/
def extractLastUserAux : List OaMessage → String
  | [] => ""
  | m :: rest =>
    if m.role ≠ "user" then extractLastUserAux rest
    else
      match m.content with
      | .str s => if jsTrim s ≠ "" then jsTrim s else extractLastUserAux rest
      | .parts l =>
        let t := jsTrim (String.join (l.map (fun p => p.getD "")))
        if t ≠ "" then t else extractLastUserAux rest
      | .absent => extractLastUserAux rest

/-- localServer.ts `extractLastUserContent`. -/
def extractLastUserContent (messages : List OaMessage) : String :=
  extractLastUserAux messages.reverse

/-- The `POST /v1/chat/completions` handler after the middleware, up to the
session mutation and answer content (the streamed re-chunking only formats
the already-complete answer). -/
def postChatCompletions (sessions : List ChatSession) (messages : List OaMessage)
    (sessionId : Option String) (freshId : String) (now tUser tAssistant : Nat)
    (bridge : ChatBridgeOutcome) : List ChatSession × HttpReply × Option String :=
  let prompt := normalizePromptForBrowser (extractLastUserContent messages)
  if prompt = "" then
    (sessions, .err 400 "messages must include at least one non-empty user message.", none)
  else
    let session : ChatSession :=
      if sessionId.getD "" ≠ "" then
        match findSession sessions (sessionId.getD "") with
        | some s => s
        | none => ⟨freshId, [], now⟩
      else ⟨freshId, [], now⟩
    let turn := handleChatTurn session prompt bridge tUser tAssistant
    (storeSession sessions turn.1, turn.2, some prompt)

/-- The authorization scheme tag checked by `extractApiKeyFromRequest`
(`authorization.toLowerCase().startsWith('bearer ')`). -/
def bearerScheme : String := "bearer "

/-- The Bearer branch of localServer.ts `extractApiKeyFromRequest`:
`authorization.slice(7).trim()` behind the scheme check. -/
def extractFromAuthHeader (authorization : Option String) : Option String :=
  match authorization with
  | some a =>
    if bearerScheme.data.isPrefixOf (jsToLower a).data then
      let token := jsTrim (String.mk (a.data.drop 7))
      if token ≠ "" then some token else none
    else none
  | none => none

/-- localServer.ts `extractApiKeyFromRequest`: a non-blank `X-API-Key`
header wins; otherwise a `Bearer` authorization token. -/
def extractApiKeyFromRequest (xApiKey authorization : Option String) : Option String :=
  match xApiKey with
  | some v => if jsTrim v ≠ "" then some (jsTrim v) else extractFromAuthHeader authorization
  | none => extractFromAuthHeader authorization

/-- Outcome of the awaited `bridgeCall('VALIDATE_API_KEY', ...)`. -/
inductive KeyValidation where
  | err (msg : String)
  | ok (valid : Bool)
  deriving DecidableEq

/-- How the `validateApiKey` middleware disposes of a request. -/
inductive AuthDecision where
  | unauthorized
  | forbidden
  | unavailable (msg : String)
  | proceed
  deriving DecidableEq

/-- localServer.ts `validateApiKey`: no extractable key is 401; a failed
validation round-trip is 503; `valid:false` is 403; only `valid:true`
lets the request proceed. -/
def validateApiKey (xApiKey authorization : Option String) (bridge : KeyValidation) :
    AuthDecision :=
  match extractApiKeyFromRequest xApiKey authorization with
  | none => .unauthorized
  | some _ =>
    match bridge with
    | .err m => .unavailable m
    | .ok valid => if valid then .proceed else .forbidden

/-- The reject conditions of one loop iteration of `waitForAssistantReply`:
a candidate meeting any of them never reaches the stability logic. -/
def candidateRejected (latest sentMessage previousSnapshot : String) : Prop :=
  latest = "" ∨ latest = previousSnapshot
    ∨ looksLikeEchoResponse latest sentMessage = true
    ∨ looksLikeWorkspaceWrapper latest = true
    ∨ looksLikeTransientStatus latest = true
    ∨ looksLikeUiChromeText latest = true

instance (latest sentMessage previousSnapshot : String) :
    Decidable (candidateRejected latest sentMessage previousSnapshot) := by
  unfold candidateRejected
  infer_instance

theorem tickAct_accept_spec (latest sentMessage previousSnapshot stableCandidate : String)
    (stableSince now : Nat)
    (h : tickAct latest sentMessage previousSnapshot stableCandidate stableSince now
      = .accept) :
    ¬ candidateRejected latest sentMessage previousSnapshot
    ∧ latest = stableCandidate ∧ 1200 ≤ now - stableSince := by
  unfold tickAct at h
  split_ifs at h with h1 h2 h3 h4 h5 h6 h7 h8 <;> try simp at h
  push_neg at h7
  exact ⟨by simp [candidateRejected, h1, h2, h3, h4, h5, h6], h7, h8⟩

theorem tickAct_record_spec (latest sentMessage previousSnapshot stableCandidate : String)
    (stableSince now : Nat)
    (h : tickAct latest sentMessage previousSnapshot stableCandidate stableSince now
      = .record) :
    latest ≠ stableCandidate := by
  unfold tickAct at h
  split_ifs at h with h1 h2 h3 h4 h5 h6 h7 <;> simp at h
  exact h7

theorem tickAct_skip_of_rejected (latest sentMessage previousSnapshot stableCandidate : String)
    (stableSince now : Nat) (h : candidateRejected latest sentMessage previousSnapshot) :
    tickAct latest sentMessage previousSnapshot stableCandidate stableSince now = .skip := by
  unfold tickAct
  rcases h with h | h | h | h | h | h <;> simp [h]

theorem waitLoop_some_spec (stream : Nat → List DomNode)
    (sentMessage previousSnapshot : String) (baselineTexts : List String) (timeoutMs : Nat) :
    ∀ (fuel t : Nat) (sc : String) (ss : Nat) (s : String),
      waitLoop stream sentMessage previousSnapshot baselineTexts timeoutMs fuel t sc ss
        = some s →
      ¬ candidateRejected s sentMessage previousSnapshot := by
  intro fuel
  induction fuel with
  | zero => intro t sc ss s h; simp [waitLoop] at h
  | succ fuel ih =>
    intro t sc ss s h
    simp only [waitLoop] at h
    by_cases ht : 500 * t < timeoutMs
    · rw [if_pos ht] at h
      cases hact : tickAct (scanTick (stream t) sentMessage previousSnapshot baselineTexts)
          sentMessage previousSnapshot sc ss (500 * t) with
      | accept =>
        rw [hact] at h
        obtain ⟨hrej, -, -⟩ := tickAct_accept_spec _ _ _ _ _ _ hact
        simpa [← Option.some_inj.mp h] using hrej
      | record =>
        rw [hact] at h
        exact ih (t + 1) _ _ s h
      | skip =>
        rw [hact] at h
        exact ih (t + 1) sc ss s h
    · rw [if_neg ht] at h
      simp at h

theorem waitLoop_none_of_rejected (stream : Nat → List DomNode)
    (sentMessage previousSnapshot : String) (baselineTexts : List String) (timeoutMs : Nat)
    (hall : ∀ u, candidateRejected (scanTick (stream u) sentMessage previousSnapshot
      baselineTexts) sentMessage previousSnapshot) :
    ∀ (fuel t : Nat) (sc : String) (ss : Nat),
      waitLoop stream sentMessage previousSnapshot baselineTexts timeoutMs fuel t sc ss
        = none := by
  intro fuel
  induction fuel with
  | zero => intro t sc ss; rfl
  | succ fuel ih =>
    intro t sc ss
    simp only [waitLoop]
    by_cases ht : 500 * t < timeoutMs
    · rw [if_pos ht, tickAct_skip_of_rejected _ _ _ _ _ _ (hall t)]
      exact ih (t + 1) sc ss
    · rw [if_neg ht]

theorem waitLoop_none_of_unstable (stream : Nat → List DomNode)
    (sentMessage previousSnapshot : String) (baselineTexts : List String) (timeoutMs : Nat)
    (hnorep : ∀ u u', u < u' →
      ¬ candidateRejected (scanTick (stream u') sentMessage previousSnapshot baselineTexts)
          sentMessage previousSnapshot →
      scanTick (stream u') sentMessage previousSnapshot baselineTexts
        ≠ scanTick (stream u) sentMessage previousSnapshot baselineTexts) :
    ∀ (fuel t : Nat) (sc : String) (ss : Nat),
      (sc = "" ∨ ∃ t0, t0 < t
        ∧ scanTick (stream t0) sentMessage previousSnapshot baselineTexts = sc) →
      waitLoop stream sentMessage previousSnapshot baselineTexts timeoutMs fuel t sc ss
        = none := by
  intro fuel
  induction fuel with
  | zero => intro t sc ss _; rfl
  | succ fuel ih =>
    intro t sc ss hsc
    simp only [waitLoop]
    by_cases ht : 500 * t < timeoutMs
    · rw [if_pos ht]
      cases hact : tickAct (scanTick (stream t) sentMessage previousSnapshot baselineTexts)
          sentMessage previousSnapshot sc ss (500 * t) with
      | accept =>
        obtain ⟨hrej, heq, -⟩ := tickAct_accept_spec _ _ _ _ _ _ hact
        rcases hsc with hsc | ⟨t0, ht0, hsc⟩
        · exact absurd (heq.trans hsc) (fun hx => hrej (Or.inl hx))
        · exact absurd (heq.trans hsc.symm) (hnorep t0 t ht0 hrej)
      | record =>
        exact ih (t + 1) _ (500 * t) (Or.inr ⟨t, Nat.lt_succ_self t, rfl⟩)
      | skip =>
        refine ih (t + 1) sc ss ?_
        rcases hsc with hsc | ⟨t0, ht0, hsc⟩
        · exact Or.inl hsc
        · exact Or.inr ⟨t0, Nat.lt_succ_of_lt ht0, hsc⟩
    · rw [if_neg ht]

/-- C4: a candidate is accepted as the final answer only when it equals the
previous tick's stable candidate and has stayed identical for at least the
1200 ms stability window; a changed candidate only becomes the new stable
candidate with a restarted timer; on the stream "searching the web",
"partial answ", then "partial answer" held steady the loop returns
"partial answer" and never an intermediate value. -/
theorem reply_stabilization_accepts_stable :
    (∀ (latest sentMessage previousSnapshot stableCandidate : String) (stableSince now : Nat),
      tickAct latest sentMessage previousSnapshot stableCandidate stableSince now = .accept →
      latest = stableCandidate ∧ 1200 ≤ now - stableSince)
    ∧ (∀ (latest sentMessage previousSnapshot stableCandidate : String) (stableSince now : Nat),
      tickAct latest sentMessage previousSnapshot stableCandidate stableSince now = .record →
      latest ≠ stableCandidate)
    ∧ (∀ (stream : Nat → List DomNode) (sentMessage previousSnapshot : String)
        (baselineTexts : List String) (timeoutMs fuel t : Nat) (sc : String) (ss : Nat),
      500 * t < timeoutMs →
      tickAct (scanTick (stream t) sentMessage previousSnapshot baselineTexts)
        sentMessage previousSnapshot sc ss (500 * t) = .record →
      waitLoop stream sentMessage previousSnapshot baselineTexts timeoutMs (fuel + 1) t sc ss
        = waitLoop stream sentMessage previousSnapshot baselineTexts timeoutMs fuel (t + 1)
            (scanTick (stream t) sentMessage previousSnapshot baselineTexts) (500 * t))
    ∧ waitForAssistantReply streamingStream "" "hi" [] 180000 = some "partial answer" := by
  refine ⟨?_, ?_, ?_, by decide⟩
  · intro latest sentMessage previousSnapshot stableCandidate stableSince now h
    exact (tickAct_accept_spec _ _ _ _ _ _ h).2
  · intro latest sentMessage previousSnapshot stableCandidate stableSince now h
    exact tickAct_record_spec _ _ _ _ _ _ h
  · intro stream sentMessage previousSnapshot baselineTexts timeoutMs fuel t sc ss ht hact
    simp only [waitLoop]
    rw [if_pos ht, hact]

theorem reply_stabilization_accepts_stable_witness :
    ("a" = "a" ∧ 1200 ≤ 1500 - 0)
    ∧ waitForAssistantReply streamingStream "" "hi" [] 180000 = some "partial answer" :=
  ⟨(reply_stabilization_accepts_stable).1 "a" "m" "x" "a" 0 1500 (by decide),
   (reply_stabilization_accepts_stable).2.2.2⟩

/-- C5 counterexample: a candidate that embeds the normalized submitted
message in its interior is not rejected by the echo filter, so "equals,
ends with, or embeds the normalized submitted message" overstates the
filter — the embed disjunct the code checks is `User request: <message>`. -/
theorem echo_filter_embeds_counterexample :
    strIncludes (normalizeText "abc hello xyz") (normalizeText "hello") = true
    ∧ looksLikeEchoResponse "abc hello xyz" "hello" = false := by
  decide

/-- C5 (amended): the echo filter rejects a candidate exactly when both
normalized strings are non-empty and the normalized candidate equals the
normalized submitted message, ends with it, or contains the string
`User request: ` followed by it; consequently the stream that first echoes
the submitted message and then holds "answer" steady yields "answer",
never the echo. -/
theorem echo_filter_amended :
    (∀ candidate sentMessage : String,
      looksLikeEchoResponse candidate sentMessage = true ↔
        (normalizeText candidate ≠ "" ∧ normalizeText sentMessage ≠ ""
          ∧ (normalizeText candidate = normalizeText sentMessage
            ∨ strEndsWith (normalizeText candidate) (normalizeText sentMessage) = true
            ∨ strIncludes (normalizeText candidate)
                ("User request: " ++ normalizeText sentMessage) = true)))
    ∧ waitForAssistantReply echoStream "" "hello" [] 180000 = some "answer" := by
  refine ⟨?_, by decide⟩
  intro candidate sentMessage
  by_cases hc : normalizeText candidate = ""
  · simp [looksLikeEchoResponse, hc]
  · by_cases hs : normalizeText sentMessage = ""
    · simp [looksLikeEchoResponse, hc, hs]
    · by_cases h1 : normalizeText candidate = normalizeText sentMessage
      · simp [looksLikeEchoResponse, hc, hs, h1]
      · by_cases h2 : strEndsWith (normalizeText candidate) (normalizeText sentMessage) = true
        · simp [looksLikeEchoResponse, hc, hs, h1, h2]
        · by_cases h3 : strIncludes (normalizeText candidate)
              ("User request: " ++ normalizeText sentMessage) = true <;>
            simp [looksLikeEchoResponse, hc, hs, h1, h2, h3]

theorem echo_filter_amended_witness :
    looksLikeEchoResponse "the answer" "answer" = true :=
  ((echo_filter_amended).1 "the answer" "answer").mpr
    ⟨by decide, by decide, Or.inr (Or.inl (by decide))⟩

/-- C6: when every tick's scanned candidate is rejected by the filters (no
new, non-filtered content appears), or no passing candidate value ever
repeats and so none stays stable, the loop ends in the timeout error
(`none`); and a successful result always passed the filters, so it is in
particular never the empty string. -/
theorem no_stable_candidate_times_out :
    (∀ (stream : Nat → List DomNode) (previousSnapshot sentMessage : String)
        (baselineTexts : List String) (timeoutMs : Nat),
      (∀ u, candidateRejected
          (scanTick (stream u) sentMessage previousSnapshot baselineTexts)
          sentMessage previousSnapshot) →
      waitForAssistantReply stream previousSnapshot sentMessage baselineTexts timeoutMs
        = none)
    ∧ (∀ (stream : Nat → List DomNode) (previousSnapshot sentMessage : String)
        (baselineTexts : List String) (timeoutMs : Nat),
      (∀ u u', u < u' →
        ¬ candidateRejected (scanTick (stream u') sentMessage previousSnapshot baselineTexts)
            sentMessage previousSnapshot →
        scanTick (stream u') sentMessage previousSnapshot baselineTexts
          ≠ scanTick (stream u) sentMessage previousSnapshot baselineTexts) →
      waitForAssistantReply stream previousSnapshot sentMessage baselineTexts timeoutMs
        = none)
    ∧ (∀ (stream : Nat → List DomNode) (previousSnapshot sentMessage : String)
        (baselineTexts : List String) (timeoutMs : Nat) (s : String),
      waitForAssistantReply stream previousSnapshot sentMessage baselineTexts timeoutMs
        = some s →
      ¬ candidateRejected s sentMessage previousSnapshot ∧ s ≠ "") := by
  refine ⟨?_, ?_, ?_⟩
  · intro stream previousSnapshot sentMessage baselineTexts timeoutMs hall
    exact waitLoop_none_of_rejected stream sentMessage previousSnapshot baselineTexts
      timeoutMs hall _ 0 "" 0
  · intro stream previousSnapshot sentMessage baselineTexts timeoutMs hnorep
    exact waitLoop_none_of_unstable stream sentMessage previousSnapshot baselineTexts
      timeoutMs hnorep _ 0 "" 0 (Or.inl rfl)
  · intro stream previousSnapshot sentMessage baselineTexts timeoutMs s h
    have hrej := waitLoop_some_spec stream sentMessage previousSnapshot baselineTexts
      timeoutMs _ 0 "" 0 s h
    refine ⟨hrej, ?_⟩
    intro hempty
    exact hrej (Or.inl hempty)

theorem no_stable_candidate_times_out_witness :
    waitForAssistantReply (fun _ => [⟨"hello", false⟩]) "" "hello" [] 2000 = none
    ∧ waitForAssistantReply (fun _ => [⟨"hello", false⟩]) "" "hello" [] 1000 = none
    ∧ ("x" : String) ≠ "" :=
  ⟨(no_stable_candidate_times_out).1 (fun _ => [⟨"hello", false⟩]) "" "hello" [] 2000
      (fun _ =>
        (by decide :
          candidateRejected (scanTick [⟨"hello", false⟩] "hello" "" []) "hello" "")),
   (no_stable_candidate_times_out).2.1 (fun _ => [⟨"hello", false⟩]) "" "hello" [] 1000
      (fun _ _ _ hpass =>
        absurd
          (by decide :
            candidateRejected (scanTick [⟨"hello", false⟩] "hello" "" []) "hello" "")
          hpass),
   ((no_stable_candidate_times_out).2.2 (fun _ => [⟨"x", false⟩]) "" "m" [] 2000 "x"
      (by decide)).2⟩

theorem outcomesFor_append (id : String) (a b : List BridgeOut) :
    outcomesFor id (a ++ b) = outcomesFor id a + outcomesFor id b := by
  simp [outcomesFor, List.filter_append]

theorem outcomesFor_map_rejected (id reason : String) (l : List String) :
    outcomesFor id (l.map (fun i => BridgeOut.rejected i reason)) = l.count id := by
  induction l with
  | nil => rfl
  | cons a rest ih =>
    by_cases ha : a = id <;>
      simp [outcomesFor, outId, List.count_cons, ha, List.filter] at ih ⊢ <;>
      omega

theorem issueCount_cons (id : String) (e : BridgeEv) (rest : List BridgeEv) :
    issueCount id (e :: rest) = issueCount id [e] + issueCount id rest := by
  cases e <;> simp [issueCount]

theorem bridgeStep_timers (st : BridgeSt) (e : BridgeEv) (h : st.timers = st.pending) :
    (bridgeStep st e).1.timers = (bridgeStep st e).1.pending := by
  cases e with
  | issue id => simp [bridgeStep, issueBridgeCall, h]
  | response id s err =>
    simp only [bridgeStep]
    unfold resolveBridgeResponse
    split <;> simp [h]
  | hello => simpa [bridgeStep] using h
  | timerFire id =>
    simp only [bridgeStep]
    unfold fireBridgeTimeout
    split <;> simp [h]
  | close => rfl

theorem bridgeStep_count (id : String) (st : BridgeSt) (e : BridgeEv)
    (h : st.timers = st.pending) :
    outcomesFor id (bridgeStep st e).2 + (bridgeStep st e).1.pending.count id
      = issueCount id [e] + st.pending.count id := by
  cases e with
  | issue j =>
    by_cases hj : j = id <;>
      simp [bridgeStep, issueBridgeCall, outcomesFor, issueCount, List.count_append,
        List.count_cons, hj] <;>
      omega
  | response j s err =>
    simp only [bridgeStep]
    unfold resolveBridgeResponse
    by_cases hmem : j ∈ st.pending
    · have hcnt : 0 < st.pending.count j := List.count_pos_iff.mpr hmem
      by_cases hj : j = id
      · subst hj
        have herase : (st.pending.erase j).count j = st.pending.count j - 1 :=
          List.count_erase_self j st.pending
        cases s <;> simp [hmem, outcomesFor, outId, issueCount, herase, List.filter]
      · have herase : (st.pending.erase j).count id = st.pending.count id :=
          List.count_erase_of_ne (fun hx => hj hx.symm) st.pending
        cases s <;> simp [hmem, outcomesFor, outId, issueCount, herase, hj, List.filter, Ne.symm hj]
    · simp [hmem, outcomesFor, issueCount]
  | hello => simp [bridgeStep, outcomesFor, issueCount]
  | timerFire j =>
    simp only [bridgeStep]
    unfold fireBridgeTimeout
    rw [h]
    by_cases hmem : j ∈ st.pending
    · have hcnt : 0 < st.pending.count j := List.count_pos_iff.mpr hmem
      by_cases hj : j = id
      · subst hj
        have herase : (st.pending.erase j).count j = st.pending.count j - 1 :=
          List.count_erase_self j st.pending
        simp [hmem, outcomesFor, outId, issueCount, herase, List.filter]
        try omega
      · have herase : (st.pending.erase j).count id = st.pending.count id :=
          List.count_erase_of_ne (fun hx => hj hx.symm) st.pending
        simp [hmem, outcomesFor, outId, issueCount, herase, hj, List.filter, Ne.symm hj]
    · simp [hmem, outcomesFor, issueCount]
  | close =>
    simp [bridgeStep, rejectAllPending, issueCount, outcomesFor_map_rejected]

theorem bridgeRun_count (id : String) (evs : List BridgeEv) :
    ∀ st : BridgeSt, st.timers = st.pending →
      (bridgeRun st evs).1.timers = (bridgeRun st evs).1.pending
      ∧ outcomesFor id (bridgeRun st evs).2 + (bridgeRun st evs).1.pending.count id
          = issueCount id evs + st.pending.count id := by
  induction evs with
  | nil =>
    intro st h
    exact ⟨h, by simp [bridgeRun, outcomesFor, issueCount]⟩
  | cons e rest ih =>
    intro st h
    have hstep_t : (bridgeStep st e).1.timers = (bridgeStep st e).1.pending :=
      bridgeStep_timers st e h
    obtain ⟨iht, ihc⟩ := ih (bridgeStep st e).1 hstep_t
    have hstep_c := bridgeStep_count id st e h
    refine ⟨by simpa [bridgeRun] using iht, ?_⟩
    have hsplit : outcomesFor id (bridgeRun st (e :: rest)).2
        = outcomesFor id (bridgeStep st e).2
          + outcomesFor id (bridgeRun (bridgeStep st e).1 rest).2 := by
      simp [bridgeRun, outcomesFor_append]
    have hpend : (bridgeRun st (e :: rest)).1 = (bridgeRun (bridgeStep st e).1 rest).1 := by
      simp [bridgeRun]
    rw [hsplit, hpend, issueCount_cons]
    omega

/-- C1: over any event trace in which a call id is issued at most once
(ids are fresh uuids), at most one terminal outcome is ever delivered for
it — exactly one once the id has left the pending table — and a response
envelope whose id is not in the table leaves the state unchanged and
delivers nothing. -/
theorem bridgeCall_exactly_one_terminal_outcome (id : String) (evs : List BridgeEv)
    (h : issueCount id evs ≤ 1) :
    outcomesFor id (bridgeRun ⟨[], []⟩ evs).2 ≤ 1
    ∧ (issueCount id evs = 1 → id ∉ (bridgeRun ⟨[], []⟩ evs).1.pending →
        outcomesFor id (bridgeRun ⟨[], []⟩ evs).2 = 1)
    ∧ (∀ (st : BridgeSt) (s : Bool) (err : String), id ∉ st.pending →
        resolveBridgeResponse st id s err = (st, [])) := by
  obtain ⟨-, hc⟩ := bridgeRun_count id evs ⟨[], []⟩ rfl
  simp only [List.count_nil] at hc
  refine ⟨by omega, ?_, ?_⟩
  · intro h1 hnp
    have hz : (bridgeRun ⟨[], []⟩ evs).1.pending.count id = 0 := List.count_eq_zero.mpr hnp
    omega
  · intro st s err hnp
    simp [resolveBridgeResponse, hnp]

theorem bridgeCall_exactly_one_terminal_outcome_witness :
    outcomesFor "a"
        (bridgeRun ⟨[], []⟩
          [.issue "a", .response "a" true "", .response "a" true ""]).2 = 1
    ∧ resolveBridgeResponse ⟨[], []⟩ "a" true "" = (⟨[], []⟩, []) :=
  ⟨(bridgeCall_exactly_one_terminal_outcome "a"
      [.issue "a", .response "a" true "", .response "a" true ""] (by decide)).2.1
      (by decide) (by decide),
   (bridgeCall_exactly_one_terminal_outcome "a" [] (by decide)).2.2 ⟨[], []⟩ true ""
      (by decide)⟩

theorem onAgentConnection_installs (readyOpen : Nat → Bool) (cur : Option Nat) (sock : Nat) :
    (onAgentConnection readyOpen cur sock).1 = some sock := by
  cases cur with
  | none => rfl
  | some old =>
    show (if old ≠ sock ∧ readyOpen old then (some sock, [old]) else (some sock, [])).1 = some sock
    split <;> rfl

/-- C2: the transport's close handler rejects every entry of the
correlation table with the bridge-disconnected error, cancels every timeout
timer, and leaves the table empty. -/
theorem bridge_close_rejects_all_pending (st : BridgeSt) :
    bridgeStep st .close = rejectAllPending st "Bridge disconnected."
    ∧ (bridgeStep st .close).1.pending = []
    ∧ (bridgeStep st .close).1.timers = []
    ∧ (bridgeStep st .close).2
        = st.pending.map (fun id => BridgeOut.rejected id "Bridge disconnected.")
    ∧ ∀ id ∈ st.pending,
        BridgeOut.rejected id "Bridge disconnected." ∈ (bridgeStep st .close).2 := by
  refine ⟨rfl, rfl, rfl, rfl, ?_⟩
  intro id hid
  exact List.mem_map_of_mem _ hid

theorem bridge_close_rejects_all_pending_witness :
    BridgeOut.rejected "a" "Bridge disconnected."
      ∈ (bridgeStep ⟨["a", "b"], ["a", "b"]⟩ .close).2 :=
  (bridge_close_rejects_all_pending ⟨["a", "b"], ["a", "b"]⟩).2.2.2.2 "a" (by decide)

/-- C3: an inbound agent connection forcibly closes a live previous socket
before installing itself, the new socket always becomes the addressable
transport, and after any reconnect sequence the last connection is the one
addressed. -/
theorem new_connection_supersedes (readyOpen : Nat → Bool) (prior : Option Nat) (sock : Nat) :
    (onAgentConnection readyOpen prior sock).1 = some sock
    ∧ (∀ old, prior = some old → old ≠ sock → readyOpen old = true →
        (onAgentConnection readyOpen prior sock).2 = [old])
    ∧ ∀ (init : Option Nat) (socks : List Nat),
        runConnections readyOpen init (socks ++ [sock]) = some sock := by
  refine ⟨onAgentConnection_installs readyOpen prior sock, ?_, ?_⟩
  · rintro old rfl hne hro
    simp [onAgentConnection, hne, hro]
  · intro init socks
    unfold runConnections
    rw [List.foldl_append]
    exact onAgentConnection_installs readyOpen _ sock

theorem new_connection_supersedes_witness :
    (onAgentConnection (fun _ => true) (some 1) 2).2 = [1]
    ∧ runConnections (fun _ => true) none ([5, 6] ++ [2]) = some 2 :=
  ⟨(new_connection_supersedes (fun _ => true) (some 1) 2).2.1 1 rfl (by decide) rfl,
   (new_connection_supersedes (fun _ => true) (some 1) 2).2.2 none [5, 6]⟩

/-- C9: any agent socket's close handler drains the whole correlation
table — also when the closing socket was already superseded and is no
longer the current agent socket — while only the agent-socket reset is
guarded by the current-socket check. -/
theorem stale_socket_close_drains_table (st : GatewaySt) (sock : Nat) :
    (onSocketClose st sock).1.bridge.pending = []
    ∧ (onSocketClose st sock).1.bridge.timers = []
    ∧ (onSocketClose st sock).2
        = st.bridge.pending.map (fun id => BridgeOut.rejected id "Bridge disconnected.")
    ∧ (st.agentSocket ≠ some sock → (onSocketClose st sock).1.agentSocket = st.agentSocket)
    ∧ (st.agentSocket = some sock → (onSocketClose st sock).1.agentSocket = none) := by
  refine ⟨rfl, rfl, rfl, ?_, ?_⟩ <;> intro h <;> simp [onSocketClose, h]

theorem stale_socket_close_drains_table_witness :
    (onSocketClose ⟨some 2, ⟨["a"], ["a"]⟩⟩ 1).1.agentSocket = some 2
    ∧ (onSocketClose ⟨some 2, ⟨["a"], ["a"]⟩⟩ 1).1.bridge.pending = [] :=
  ⟨(stale_socket_close_drains_table ⟨some 2, ⟨["a"], ["a"]⟩⟩ 1).2.2.2.1 (by decide),
   (stale_socket_close_drains_table ⟨some 2, ⟨["a"], ["a"]⟩⟩ 1).1⟩

theorem handleChatTurn_messages (session : ChatSession) (prompt : String)
    (bridge : ChatBridgeOutcome) (tUser tAssistant : Nat) :
    (handleChatTurn session prompt bridge tUser tAssistant).1.id = session.id
    ∧ (handleChatTurn session prompt bridge tUser tAssistant).1.createdAt = session.createdAt
    ∧ (handleChatTurn session prompt bridge tUser tAssistant).1.messages
        = session.messages ++ [⟨.user, prompt, tUser⟩]
          ++ (match successContent bridge with
              | some c => [⟨.assistant, c, tAssistant⟩]
              | none => []) := by
  cases bridge with
  | err m => simp [handleChatTurn, successContent]
  | ok content error =>
    by_cases he : error.getD "" ≠ ""
    · simp [handleChatTurn, successContent, he]
    · by_cases hc : content.getD "" = "" <;>
        simp [handleChatTurn, successContent, he, hc]

theorem postV1Chat_existing (sessions : List ChatSession) (msg sid freshId : String)
    (now tUser tAssistant : Nat) (bridge : ChatBridgeOutcome) (session : ChatSession)
    (hmsg : msg ≠ "") (hnorm : jsTrim (normalizePromptForBrowser msg) ≠ "")
    (hsid : sid ≠ "") (hfind : findSession sessions sid = some session) :
    postV1Chat sessions (some msg) (some sid) freshId now tUser tAssistant bridge
      = (storeSession sessions
          (handleChatTurn session (normalizePromptForBrowser msg) bridge tUser tAssistant).1,
        (handleChatTurn session (normalizePromptForBrowser msg) bridge tUser tAssistant).2,
        some (normalizePromptForBrowser msg)) := by
  simp [postV1Chat, hmsg, hnorm, hsid, hfind]

theorem postChatCompletions_existing (sessions : List ChatSession)
    (messages : List OaMessage) (sid freshId : String) (now tUser tAssistant : Nat)
    (bridge : ChatBridgeOutcome) (session : ChatSession)
    (hp : normalizePromptForBrowser (extractLastUserContent messages) ≠ "")
    (hsid : sid ≠ "") (hfind : findSession sessions sid = some session) :
    postChatCompletions sessions messages (some sid) freshId now tUser tAssistant bridge
      = (storeSession sessions
          (handleChatTurn session (normalizePromptForBrowser (extractLastUserContent messages))
            bridge tUser tAssistant).1,
        (handleChatTurn session (normalizePromptForBrowser (extractLastUserContent messages))
          bridge tUser tAssistant).2,
        some (normalizePromptForBrowser (extractLastUserContent messages))) := by
  simp [postChatCompletions, hp, hsid, hfind]

/-- C7: on both chat endpoints a turn appends exactly one user message
before the bridge call, and exactly one assistant message exactly when the
bridge call succeeded with non-empty content; otherwise the session keeps
only the new user message, its other fields untouched. -/
theorem chat_turn_session_effects :
    (∀ (session : ChatSession) (prompt : String) (bridge : ChatBridgeOutcome)
        (tUser tAssistant : Nat),
      (handleChatTurn session prompt bridge tUser tAssistant).1.id = session.id
      ∧ (handleChatTurn session prompt bridge tUser tAssistant).1.createdAt = session.createdAt
      ∧ (handleChatTurn session prompt bridge tUser tAssistant).1.messages
          = session.messages ++ [⟨.user, prompt, tUser⟩]
            ++ (match successContent bridge with
                | some c => [⟨.assistant, c, tAssistant⟩]
                | none => [])
      ∧ (successContent bridge = none →
          (handleChatTurn session prompt bridge tUser tAssistant).1.messages
            = session.messages ++ [⟨.user, prompt, tUser⟩]))
    ∧ (∀ (sessions : List ChatSession) (msg sid freshId : String) (now tUser tAssistant : Nat)
        (bridge : ChatBridgeOutcome) (session : ChatSession),
        msg ≠ "" → jsTrim (normalizePromptForBrowser msg) ≠ "" → sid ≠ "" →
        findSession sessions sid = some session →
        postV1Chat sessions (some msg) (some sid) freshId now tUser tAssistant bridge
          = (storeSession sessions
              (handleChatTurn session (normalizePromptForBrowser msg) bridge tUser tAssistant).1,
            (handleChatTurn session (normalizePromptForBrowser msg) bridge tUser tAssistant).2,
            some (normalizePromptForBrowser msg)))
    ∧ (∀ (sessions : List ChatSession) (messages : List OaMessage) (sid freshId : String)
        (now tUser tAssistant : Nat) (bridge : ChatBridgeOutcome) (session : ChatSession),
        normalizePromptForBrowser (extractLastUserContent messages) ≠ "" → sid ≠ "" →
        findSession sessions sid = some session →
        postChatCompletions sessions messages (some sid) freshId now tUser tAssistant bridge
          = (storeSession sessions
              (handleChatTurn session
                (normalizePromptForBrowser (extractLastUserContent messages))
                bridge tUser tAssistant).1,
            (handleChatTurn session
              (normalizePromptForBrowser (extractLastUserContent messages))
              bridge tUser tAssistant).2,
            some (normalizePromptForBrowser (extractLastUserContent messages)))) := by
  refine ⟨?_, ?_, ?_⟩
  · intro session prompt bridge tUser tAssistant
    obtain ⟨h1, h2, h3⟩ := handleChatTurn_messages session prompt bridge tUser tAssistant
    refine ⟨h1, h2, h3, ?_⟩
    intro hnone
    simpa [hnone] using h3
  · intro sessions msg sid freshId now tUser tAssistant bridge session h1 h2 h3 h4
    exact postV1Chat_existing sessions msg sid freshId now tUser tAssistant bridge session
      h1 h2 h3 h4
  · intro sessions messages sid freshId now tUser tAssistant bridge session h1 h2 h3
    exact postChatCompletions_existing sessions messages sid freshId now tUser tAssistant
      bridge session h1 h2 h3

theorem chat_turn_session_effects_witness :
    (handleChatTurn ⟨"s", [], 0⟩ "hi" (.err "boom") 2 3).1.messages
      = [⟨.user, "hi", 2⟩]
    ∧ postV1Chat [⟨"s", [], 0⟩] (some "hi") (some "s") "f" 1 2 3 (.ok (some "hello") none)
      = (storeSession [⟨"s", [], 0⟩]
          (handleChatTurn ⟨"s", [], 0⟩ (normalizePromptForBrowser "hi")
            (.ok (some "hello") none) 2 3).1,
        (handleChatTurn ⟨"s", [], 0⟩ (normalizePromptForBrowser "hi")
          (.ok (some "hello") none) 2 3).2,
        some (normalizePromptForBrowser "hi")) :=
  ⟨by
    have := (chat_turn_session_effects).1 ⟨"s", [], 0⟩ "hi" (.err "boom") 2 3
    simpa using this.2.2.2 (by decide),
   (chat_turn_session_effects).2.1 [⟨"s", [], 0⟩] "hi" "s" "f" 1 2 3
      (.ok (some "hello") none) ⟨"s", [], 0⟩ (by decide) (by decide) (by decide) (by rfl)⟩

theorem strLength_pos (s : String) (h : s ≠ "") : 0 < s.length := by
  cases hs : s.data with
  | nil =>
    refine absurd (String.ext ?_) h
    simp [hs]
  | cons a l =>
    have : s.length = l.length + 1 := by simp [String.length, hs]
    omega

theorem tailAfterLast_isSome (m : List Char) (hm : m.isEmpty = false) :
    ∀ l : List Char, (tailAfterLast m l).isSome = charsContain m l := by
  intro l
  induction l with
  | nil => simp [tailAfterLast, charsContain, hm]
  | cons c rest ih =>
    unfold tailAfterLast charsContain
    cases h : tailAfterLast m rest with
    | some t =>
      rw [h] at ih
      simp at ih
      simp [← ih]
    | none =>
      rw [h] at ih
      simp at ih
      cases hp : m.isPrefixOf (c :: rest) <;> simp [hp, ih]

/-- C10: `normalizePromptForBrowser` returns exactly the trimmed text after
the last `User request:` marker when the marker occurs and that trimmed
tail is non-empty, and the original string otherwise; the `/v1/chat` turn
stores and sends the normalized — not the original — message, the appended
user message being exactly the prompt handed to the bridge. -/
theorem prompt_marker_normalization :
    (∀ input : String,
      (tailAfterLast promptMarker.data input.data).isSome
        = charsContain promptMarker.data input.data)
    ∧ (∀ (input : String) (t : List Char),
        tailAfterLast promptMarker.data input.data = some t →
        (jsTrim (String.mk t) ≠ "" → normalizePromptForBrowser input = jsTrim (String.mk t))
        ∧ (jsTrim (String.mk t) = "" → normalizePromptForBrowser input = input))
    ∧ (∀ input : String,
        tailAfterLast promptMarker.data input.data = none →
        normalizePromptForBrowser input = input)
    ∧ (∀ (sessions : List ChatSession) (msg sid freshId : String) (now tUser tAssistant : Nat)
        (bridge : ChatBridgeOutcome) (session : ChatSession),
        msg ≠ "" → jsTrim (normalizePromptForBrowser msg) ≠ "" → sid ≠ "" →
        findSession sessions sid = some session →
        (postV1Chat sessions (some msg) (some sid) freshId now tUser tAssistant bridge).2.2
          = some (normalizePromptForBrowser msg))
    ∧ (∀ (session : ChatSession) (prompt : String) (bridge : ChatBridgeOutcome)
        (tUser tAssistant : Nat),
        (handleChatTurn session prompt bridge tUser tAssistant).1.messages[session.messages.length]?
          = some ⟨.user, prompt, tUser⟩) := by
  refine ⟨fun input => tailAfterLast_isSome promptMarker.data (by decide) input.data,
    ?_, ?_, ?_, ?_⟩
  · intro input t ht
    constructor
    · intro hne
      have hpos := strLength_pos _ hne
      simp [normalizePromptForBrowser, ht, hpos]
    · intro heq
      have hz : (jsTrim (String.mk t)).length = 0 := by simp [heq]
      simp [normalizePromptForBrowser, ht, hz]
  · intro input ht
    simp [normalizePromptForBrowser, ht]
  · intro sessions msg sid freshId now tUser tAssistant bridge session h1 h2 h3 h4
    rw [postV1Chat_existing sessions msg sid freshId now tUser tAssistant bridge session
      h1 h2 h3 h4]
  · intro session prompt bridge tUser tAssistant
    obtain ⟨-, -, h3⟩ := handleChatTurn_messages session prompt bridge tUser tAssistant
    rw [List.append_assoc] at h3
    rw [h3, List.getElem?_append_right (Nat.le_refl _)]
    simp

theorem prompt_marker_normalization_witness :
    normalizePromptForBrowser "sys text User request: do this " = "do this"
    ∧ (postV1Chat [⟨"s", [], 0⟩] (some "User request: hi") (some "s") "f" 1 2 3
        (.ok (some "ok") none)).2.2 = some "hi" := by
  constructor
  · have h := (prompt_marker_normalization).2.1 "sys text User request: do this "
      " do this ".data (by decide)
    exact h.1 (by decide)
  · have h := (prompt_marker_normalization).2.2.2.1 [⟨"s", [], 0⟩] "User request: hi" "s" "f"
      1 2 3 (.ok (some "ok") none) ⟨"s", [], 0⟩ (by decide) (by decide) (by decide) (by rfl)
    rw [h]
    decide

/-- C8: the auth middleware maps outcomes as: no extractable key gives 401;
a failed bridge validation round-trip gives 503; a `valid:false` round-trip
gives 403; the request proceeds exactly when the round-trip returned
`valid:true` — validity is never decided locally. -/
theorem auth_middleware_status_mapping (xApiKey authorization : Option String)
    (bridge : KeyValidation) :
    (extractApiKeyFromRequest xApiKey authorization = none →
      validateApiKey xApiKey authorization bridge = .unauthorized)
    ∧ (extractApiKeyFromRequest xApiKey authorization ≠ none →
        bridge = .ok false → validateApiKey xApiKey authorization bridge = .forbidden)
    ∧ (∀ m, extractApiKeyFromRequest xApiKey authorization ≠ none →
        bridge = .err m → validateApiKey xApiKey authorization bridge = .unavailable m)
    ∧ (validateApiKey xApiKey authorization bridge = .proceed ↔
        extractApiKeyFromRequest xApiKey authorization ≠ none ∧ bridge = .ok true) := by
  unfold validateApiKey
  cases hx : extractApiKeyFromRequest xApiKey authorization with
  | none => simp [hx]
  | some k =>
    cases bridge with
    | err m => simp
    | ok valid => cases valid <;> simp

theorem auth_middleware_status_mapping_witness :
    validateApiKey (some "k") none (KeyValidation.ok true) = .proceed
    ∧ validateApiKey none none (KeyValidation.ok true) = .unauthorized :=
  ⟨(auth_middleware_status_mapping (some "k") none (.ok true)).2.2.2.mpr ⟨by decide, rfl⟩,
   (auth_middleware_status_mapping none none (.ok true)).1 rfl⟩
